import Mathlib

/-!
Verification of the contact-form controller of `script.js` (Grand River
Digital site). The controller is embedded shallowly: each DOM element the
code touches becomes a record, each event handler becomes a pure function
from the old state to the new state, and the promise chain of the fetch
call becomes a total function from the completion of the request to the
outcome branch that runs.
-/

set_option autoImplicit false

/-- One required form field. `value` is the current text, `type` mirrors
the `type` property of the input element (the code compares it with the
string "email"), `isError` is the presence of the `is-error` class and
`ariaInvalid` the presence of the `aria-invalid` attribute. -/
structure FormField where
  value : String
  type : String
  isError : Bool
  ariaInvalid : Bool
deriving DecidableEq

/-- Model of `String.prototype.trim`: remove leading and trailing
whitespace characters. Defined over the character list so that concrete
instances evaluate inside the kernel. -/
def jsTrim (s : String) : String :=
  ⟨((s.data.dropWhile Char.isWhitespace).reverse.dropWhile Char.isWhitespace).reverse⟩

/-- Model of `String.prototype.includes` for a one-character needle, as in
`field.value.includes("@")`. -/
def jsIncludes (s : String) (c : Char) : Bool :=
  s.data.contains c

/-- `clearError(field)` from the source: removes the `is-error` class and
the `aria-invalid` attribute. -/
def clearError (field : FormField) : FormField :=
  { field with isError := false, ariaInvalid := false }

/-- `validateField(field)` from the source. It computes
`empty = !field.value.trim()` and
`badEmail = field.type === "email" && field.value && !field.value.includes("@")`;
on `empty || badEmail` it adds the error class, sets `aria-invalid` and
returns false, otherwise it clears both and returns true. The mutation of
the field and the returned boolean are paired. -/
def validateField (field : FormField) : FormField × Bool :=
  let empty := (jsTrim field.value).isEmpty
  let badEmail := field.type == "email" && !field.value.isEmpty && !(jsIncludes field.value '@')
  if empty || badEmail then
    ({ field with isError := true, ariaInvalid := true }, false)
  else
    (clearError field, true)

theorem validateField_isError (f : FormField) :
    (validateField f).1.isError = !(validateField f).2 := by
  simp only [validateField]
  split <;> simp [clearError]

theorem validateField_ariaInvalid (f : FormField) :
    (validateField f).1.ariaInvalid = !(validateField f).2 := by
  simp only [validateField]
  split <;> simp [clearError]

theorem validateField_value (f : FormField) :
    (validateField f).1.value = f.value := by
  simp only [validateField]
  split <;> simp [clearError]

/-- Bool-level characterization of the failure condition of `validateField`. -/
theorem validateField_false_iff (f : FormField) :
    ((validateField f).2 = false) ↔
      ((jsTrim f.value).isEmpty
        || (f.type == "email" && !f.value.isEmpty && !(jsIncludes f.value '@'))) = true := by
  simp only [validateField]
  split <;> rename_i h <;> simp [h]

/-- C1: for a required field, `validateField` returns false exactly when
the trimmed value is empty or the field is an email field whose value is
non-empty and lacks a `@` character; the error class and the
`aria-invalid` marker are set on failure and cleared on success (they
always equal the negation of the returned boolean). -/
theorem validateField_spec (f : FormField) :
    ((validateField f).2 = false ↔
      jsTrim f.value = "" ∨
        (f.type = "email" ∧ f.value ≠ "" ∧ jsIncludes f.value '@' = false)) ∧
    (validateField f).1.isError = !(validateField f).2 ∧
    (validateField f).1.ariaInvalid = !(validateField f).2 := by
  refine ⟨?_, validateField_isError f, validateField_ariaInvalid f⟩
  rw [validateField_false_iff]
  simp only [Bool.or_eq_true, Bool.and_eq_true, beq_iff_eq, Bool.not_eq_true',
    String.isEmpty_iff]
  constructor
  · rintro (h | ⟨⟨hty, hne⟩, hc⟩)
    · exact Or.inl h
    · refine Or.inr ⟨hty, ?_, hc⟩
      intro hv
      rw [hv] at hne
      exact absurd hne (by decide)
  · rintro (h | ⟨hty, hne, hc⟩)
    · exact Or.inl h
    · refine Or.inr ⟨⟨hty, ?_⟩, hc⟩
      cases hv : f.value.isEmpty
      · rfl
      · exact absurd ((String.isEmpty_iff f.value).mp hv) hne

/-- The validation loop of the submit handler:
`let valid = true; required.forEach(field => { if (!validateField(field)) valid = false })`.
Every field is validated (and its error markers updated) whether or not an
earlier field already failed, and the flag ends up false as soon as one
field fails. -/
def validateAllLoop : List FormField → List FormField × Bool
  | [] => ([], true)
  | f :: fs =>
    let r := validateField f
    let rest := validateAllLoop fs
    (r.1 :: rest.1, r.2 && rest.2)

/-- `required.find(f => f.classList.contains("is-error"))` from the submit
handler: the first field of the list carrying the error class. -/
def focusTarget (fields : List FormField) : Option FormField :=
  fields.find? (fun f => f.isError)

theorem validateAllLoop_fst (fields : List FormField) :
    (validateAllLoop fields).1 = fields.map (fun f => (validateField f).1) := by
  induction fields with
  | nil => rfl
  | cons f fs ih => simp [validateAllLoop, ih]

theorem validateAllLoop_snd (fields : List FormField) :
    (validateAllLoop fields).2 = fields.all (fun f => (validateField f).2) := by
  induction fields with
  | nil => rfl
  | cons f fs ih => simp [validateAllLoop, ih]

theorem find?_map_comm {α β : Type} (g : α → β) (p : β → Bool) (l : List α) :
    (l.map g).find? p = (l.find? (fun a => p (g a))).map g := by
  induction l with
  | nil => rfl
  | cons a l ih =>
    by_cases h : p (g a) = true
    · simp [List.find?, h]
    · simp only [List.map_cons, List.find?, h, Bool.false_eq_true, if_neg] at *
      simpa [h] using ih

/-- C2: the validate-all loop returns true exactly when every required
field individually validates true; it updates every field (no
short-circuit, so every invalid field ends up flagged), and the focus
target chosen afterwards is the first individually invalid field of the
list, in its flagged state (none when all fields are valid). -/
theorem validateAll_spec (fields : List FormField) :
    (validateAllLoop fields).2 = fields.all (fun f => (validateField f).2) ∧
    (validateAllLoop fields).1 = fields.map (fun f => (validateField f).1) ∧
    focusTarget (validateAllLoop fields).1 =
      (fields.find? (fun f => !(validateField f).2)).map (fun f => (validateField f).1) := by
  refine ⟨validateAllLoop_snd fields, validateAllLoop_fst fields, ?_⟩
  rw [validateAllLoop_fst, focusTarget,
    find?_map_comm (fun f => (validateField f).1) (fun f => f.isError) fields]
  have hp : (fun a => (validateField a).1.isError) = (fun f => !(validateField f).2) := by
    funext f
    exact validateField_isError f
  rw [hp]

/-- The values of the five named inputs the submit handler reads
(`#cname`, `#cemail`, `#cbusiness`, `#cdesc`, `#cbudget`). -/
structure ContactFormValues where
  cname : String
  cemail : String
  cbusiness : String
  cdesc : String
  cbudget : String
deriving DecidableEq

/-- The `formData` object built by the submit handler. `name`, `email`,
`business` and `description` are read with `.value.trim()`; `budget` is
read with `.value` alone; `timestamp` is `new Date().toISOString()`,
passed in here as the parameter `now` (it is produced by the clock at
submit time, never read from a field). -/
structure FormData where
  name : String
  email : String
  business : String
  description : String
  budget : String
  timestamp : String
deriving DecidableEq

def buildFormData (v : ContactFormValues) (now : String) : FormData :=
  { name := jsTrim v.cname
    email := jsTrim v.cemail
    business := jsTrim v.cbusiness
    description := jsTrim v.cdesc
    budget := v.cbudget
    timestamp := now }

/-- The key-value pairs of the JSON body passed to `JSON.stringify`, in
source order. All values of the object are strings. -/
def requestBody (d : FormData) : List (String × String) :=
  [("name", d.name), ("email", d.email), ("business", d.business),
   ("description", d.description), ("budget", d.budget),
   ("timestamp", d.timestamp), ("_replyto", d.email),
   ("_subject", "New consultation request — " ++ d.business)]

structure HttpRequest where
  method : String
  url : String
  headers : List (String × String)
  body : List (String × String)
deriving DecidableEq

def endpoint : String := "https://formspree.io/f/xnjbrllk"

def buildRequest (v : ContactFormValues) (now : String) : HttpRequest :=
  { method := "POST"
    url := endpoint
    headers := [("Content-Type", "application/json"), ("Accept", "application/json")]
    body := requestBody (buildFormData v now) }

/-- The submit control: `disabled` property and visible content
(`textContent` while sending, the cloned snapshot children otherwise,
modelled as the label string). -/
structure SubmitButton where
  disabled : Bool
  label : String
deriving DecidableEq

def sendingLabel : String := "Sending…"

/-- `setSubmitting(on)` from the source: sets `disabled = on`, and either
swaps the text to the pending indicator or restores the snapshot taken at
initialization. -/
def setSubmitting (btnSnapshot : String) (flag : Bool) : SubmitButton :=
  if flag then { disabled := true, label := sendingLabel }
  else { disabled := false, label := btnSnapshot }

/-- The state the submit handler starts from: the required fields, the
named input values, the submit control and the snapshot of its original
content. -/
structure FormState where
  fields : List FormField
  values : ContactFormValues
  button : SubmitButton
  btnSnapshot : String
deriving DecidableEq

/-- What one run of the submit handler leaves behind: the fields after
the validation loop, the submit control, the field given focus (if any)
and the list of HTTP requests issued during the run. -/
structure SubmitResult where
  fields : List FormField
  button : SubmitButton
  focused : Option FormField
  requests : List HttpRequest
deriving DecidableEq

/-- The `submit` listener of the source (after `e.preventDefault()`):
run the validation loop over the required fields; if some field failed,
focus the first field carrying the error class and return without
touching the button or the network; otherwise build `formData`, call
`setSubmitting(true)` and issue the single fetch. -/
def onSubmit (st : FormState) (now : String) : SubmitResult :=
  let r := validateAllLoop st.fields
  if r.2 then
    { fields := r.1
      button := setSubmitting st.btnSnapshot true
      focused := none
      requests := [buildRequest st.values now] }
  else
    { fields := r.1
      button := st.button
      focused := focusTarget r.1
      requests := [] }

/-- C3: when validation of the required fields fails, the submission is
aborted before any network request: the handler issues no request, the
submit control is left exactly as it was (no disable, no label swap),
some field in the resulting list carries the error indicator, and the
first flagged field is the focus target. -/
theorem submit_invalid_aborts (st : FormState) (now : String)
    (h : (validateAllLoop st.fields).2 = false) :
    (onSubmit st now).requests = [] ∧
    (onSubmit st now).button = st.button ∧
    ((onSubmit st now).fields.any (fun f => f.isError)) = true ∧
    (onSubmit st now).focused = focusTarget (validateAllLoop st.fields).1 := by
  refine ⟨?_, ?_, ?_, ?_⟩ <;> simp only [onSubmit, h, Bool.false_eq_true, if_neg,
    not_false_eq_true]
  rw [validateAllLoop_fst]
  rw [validateAllLoop_snd] at h
  have h2 : ¬ ∀ f ∈ st.fields, (validateField f).2 = true := by
    intro hall
    rw [List.all_eq_true.mpr hall] at h
    exact Bool.true_eq_false.mp h
  push_neg at h2
  obtain ⟨f, hf, hval⟩ := h2
  refine List.any_eq_true.mpr ⟨(validateField f).1, List.mem_map_of_mem _ hf, ?_⟩
  simp [validateField_isError, Bool.not_eq_true, hval]

/-- A concrete state whose email field fails validation. -/
def invalidFormState : FormState :=
  { fields := [{ value := "not-an-email", type := "email", isError := false, ariaInvalid := false }]
    values := { cname := "Alice", cemail := "not-an-email", cbusiness := "Acme",
                cdesc := "Need a site", cbudget := "1000" }
    button := { disabled := false, label := "Send" }
    btnSnapshot := "Send" }

theorem submit_invalid_aborts_witness :
    (validateAllLoop invalidFormState.fields).2 = false ∧
    ((onSubmit invalidFormState "2026-01-01T00:00:00.000Z").requests = [] ∧
     (onSubmit invalidFormState "2026-01-01T00:00:00.000Z").button = invalidFormState.button ∧
     ((onSubmit invalidFormState "2026-01-01T00:00:00.000Z").fields.any (fun f => f.isError)) = true ∧
     (onSubmit invalidFormState "2026-01-01T00:00:00.000Z").focused =
       focusTarget (validateAllLoop invalidFormState.fields).1) :=
  ⟨by decide, submit_invalid_aborts invalidFormState "2026-01-01T00:00:00.000Z" (by decide)⟩

/-- Form values whose budget select value carries surrounding whitespace. -/
def untrimmedBudgetValues : ContactFormValues :=
  { cname := "Alice ", cemail := " a@b.com", cbusiness := "Acme",
    cdesc := "Need a site", cbudget := " 1000 " }

/-- C4 counterexample: the submit handler reads the budget select with
`.value` alone, without `.trim()`, so the budget entry of the payload is
the raw value, not the trimmed one: with budget value " 1000 " the body
carries " 1000 " while the trimmed value is "1000". -/
theorem budget_not_trimmed_counterexample :
    (buildFormData untrimmedBudgetValues "2026-02-03T04:05:06.000Z").budget = " 1000 " ∧
    jsTrim untrimmedBudgetValues.cbudget = "1000" ∧
    (buildFormData untrimmedBudgetValues "2026-02-03T04:05:06.000Z").budget ≠
      jsTrim untrimmedBudgetValues.cbudget := by
  refine ⟨rfl, by decide, by decide⟩

/-- C4 (amended): on a submit where all required fields validate, exactly
one HTTP POST is issued, to the fixed endpoint; its JSON body carries, in
order, name, email, business, description, budget, timestamp, _replyto
and _subject, where name, email, business and description are the trimmed
input values, budget is the raw (untrimmed) select value, timestamp is
the freshly generated clock string `now` (never a field value), _replyto
equals the trimmed email, and _subject is
"New consultation request — <business>". -/
theorem submit_valid_request (st : FormState) (now : String)
    (h : (validateAllLoop st.fields).2 = true) :
    (onSubmit st now).requests = [buildRequest st.values now] ∧
    (buildRequest st.values now).method = "POST" ∧
    (buildRequest st.values now).url = endpoint ∧
    (buildRequest st.values now).headers =
      [("Content-Type", "application/json"), ("Accept", "application/json")] ∧
    (buildRequest st.values now).body =
      [("name", jsTrim st.values.cname), ("email", jsTrim st.values.cemail),
       ("business", jsTrim st.values.cbusiness), ("description", jsTrim st.values.cdesc),
       ("budget", st.values.cbudget), ("timestamp", now),
       ("_replyto", jsTrim st.values.cemail),
       ("_subject", "New consultation request — " ++ jsTrim st.values.cbusiness)] := by
  refine ⟨?_, rfl, rfl, rfl, rfl⟩
  simp [onSubmit, h]

/-- A concrete state all of whose required fields validate. -/
def validFormState : FormState :=
  { fields := [{ value := "a@b.com", type := "email", isError := false, ariaInvalid := false },
               { value := "Alice ", type := "text", isError := true, ariaInvalid := true }]
    values := { cname := "Alice ", cemail := "a@b.com", cbusiness := "Acme",
                cdesc := "Need a site", cbudget := "1000" }
    button := { disabled := false, label := "Send" }
    btnSnapshot := "Send" }

theorem submit_valid_request_witness :
    (validateAllLoop validFormState.fields).2 = true ∧
    ((onSubmit validFormState "2026-01-01T00:00:00.000Z").requests =
       [buildRequest validFormState.values "2026-01-01T00:00:00.000Z"] ∧
     (buildRequest validFormState.values "2026-01-01T00:00:00.000Z").method = "POST" ∧
     (buildRequest validFormState.values "2026-01-01T00:00:00.000Z").url = endpoint ∧
     (buildRequest validFormState.values "2026-01-01T00:00:00.000Z").headers =
       [("Content-Type", "application/json"), ("Accept", "application/json")] ∧
     (buildRequest validFormState.values "2026-01-01T00:00:00.000Z").body =
       [("name", jsTrim validFormState.values.cname),
        ("email", jsTrim validFormState.values.cemail),
        ("business", jsTrim validFormState.values.cbusiness),
        ("description", jsTrim validFormState.values.cdesc),
        ("budget", validFormState.values.cbudget),
        ("timestamp", "2026-01-01T00:00:00.000Z"),
        ("_replyto", jsTrim validFormState.values.cemail),
        ("_subject", "New consultation request — " ++ jsTrim validFormState.values.cbusiness)]) :=
  ⟨by decide, submit_valid_request validFormState "2026-01-01T00:00:00.000Z" (by decide)⟩

/-- The three branches the completion of the fetch can run: the `data.ok`
branch, the `else` branch of the second `.then`, and the `.catch`. -/
inductive Outcome
  | success
  | remoteRejection
  | networkFailure
deriving DecidableEq

/-- A JavaScript value as far as the response handling inspects one:
`data.ok` is read and tested for truthiness. -/
inductive JSValue
  | undefined
  | null
  | bool (b : Bool)
  | num (n : Int)
  | str (s : String)
deriving DecidableEq

/-- JavaScript truthiness of the modelled values (`if (data.ok)`). -/
def truthy : JSValue → Bool
  | .undefined => false
  | .null => false
  | .bool b => b
  | .num n => n != 0
  | .str s => !s.isEmpty

/-- Property access `data.ok` on a parsed JSON object, modelled as an
association list; a missing property reads as `undefined`. -/
def getProp (data : List (String × JSValue)) (k : String) : JSValue :=
  match data.find? (fun kv => kv.1 == k) with
  | some kv => kv.2
  | none => .undefined

/-- How the fetch promise settles: `rejected` is a failure of the request
itself (the fetch promise rejects); `resolved body` is an HTTP response of
any status, where `body` is `some data` when `res.json()` parses the body
into the object `data` and `none` when the body is not valid JSON (then
`res.json()` rejects). -/
inductive FetchCompletion
  | resolved (body : Option (List (String × JSValue)))
  | rejected
deriving DecidableEq

/-- The promise chain
`.then(res => res.json()).then(data => if (data.ok) ... else ...).catch(...)`
as a function from the completion of the fetch to the branch that runs: a
rejected fetch and a body that fails JSON parsing both fall through to the
`.catch`; a parsed body runs the `data.ok` test. -/
def interpretCompletion : FetchCompletion → Outcome
  | .rejected => .networkFailure
  | .resolved none => .networkFailure
  | .resolved (some data) =>
    if truthy (getProp data "ok") then .success else .remoteRejection

/-- UI state the outcome branches act on: the required fields, the named
input values, the submit control and its snapshot, the hidden flag of the
success element, whether it was scrolled into view, the alerts shown so
far, and the delays of the hide timers scheduled so far (the code keeps no
handle to a timer, so none can be cancelled). -/
structure UIState where
  fields : List FormField
  values : ContactFormValues
  button : SubmitButton
  btnSnapshot : String
  successHidden : Bool
  scrolledToSuccess : Bool
  alerts : List String
  scheduledHides : List Nat
deriving DecidableEq

/-- `form.reset()` on one field: the value returns to its markup default,
empty for these inputs. -/
def resetField (f : FormField) : FormField :=
  { f with value := "" }

def emptyValues : ContactFormValues :=
  { cname := "", cemail := "", cbusiness := "", cdesc := "", cbudget := "" }

def rejectionAlert : String :=
  "Something went wrong. Please try again or email us directly at info@grandriverdigital.ca"

def networkAlert : String :=
  "Network error. Please check your connection and try again."

/-- The three outcome branches of the source, one run each. Success:
`form.reset()`, `required.forEach(f => clearError(f))`,
`setSubmitting(false)`, `successEl.hidden = false`, scroll into view, and
`setTimeout(() => successEl.hidden = true, 8000)` (appended to the
schedule, never removed). Rejection and network failure:
`setSubmitting(false)` and one alert each, nothing else touched. -/
def handleOutcome (st : UIState) : Outcome → UIState
  | .success =>
    { st with
      values := emptyValues
      fields := st.fields.map (fun f => clearError (resetField f))
      button := setSubmitting st.btnSnapshot false
      successHidden := false
      scrolledToSuccess := true
      scheduledHides := st.scheduledHides ++ [8000] }
  | .remoteRejection =>
    { st with
      button := setSubmitting st.btnSnapshot false
      alerts := st.alerts ++ [rejectionAlert] }
  | .networkFailure =>
    { st with
      button := setSubmitting st.btnSnapshot false
      alerts := st.alerts ++ [networkAlert] }

/-- The whole completion handling of one in-flight submission: pick the
branch the settled fetch runs and run it. -/
def completeSubmission (st : UIState) (c : FetchCompletion) : UIState :=
  handleOutcome st (interpretCompletion c)

/-- C5: the success branch resets every named input to empty, clears the
error markers of every required field (and their values, by the reset),
restores the submit control to its enabled original content, reveals the
success element, scrolls it into view, and appends exactly one hide timer
of 8000 ms to the schedule; no branch ever removes a scheduled hide, so
the hide is unconditional. -/
theorem success_outcome_spec (st : UIState) :
    (handleOutcome st .success).values = emptyValues ∧
    (handleOutcome st .success).fields =
      st.fields.map (fun f => clearError (resetField f)) ∧
    ((handleOutcome st .success).fields.all
      (fun f => !f.isError && !f.ariaInvalid && f.value.isEmpty)) = true ∧
    (handleOutcome st .success).button = { disabled := false, label := st.btnSnapshot } ∧
    (handleOutcome st .success).successHidden = false ∧
    (handleOutcome st .success).scrolledToSuccess = true ∧
    (handleOutcome st .success).scheduledHides = st.scheduledHides ++ [8000] ∧
    (∀ o : Outcome, ∃ extra : List Nat,
      (handleOutcome st o).scheduledHides = st.scheduledHides ++ extra) := by
  refine ⟨rfl, rfl, ?_, by simp [handleOutcome, setSubmitting], rfl, rfl, rfl, ?_⟩
  · simp only [handleOutcome, List.all_eq_true]
    intro f hf
    rcases List.mem_map.mp hf with ⟨g, _, rfl⟩
    simp [clearError, resetField]
    decide
  · intro o
    cases o with
    | success => exact ⟨[8000], rfl⟩
    | remoteRejection => exact ⟨[], by simp [handleOutcome]⟩
    | networkFailure => exact ⟨[], by simp [handleOutcome]⟩

/-- C6: the rejection branch and the network-failure branch both restore
the submit control to its enabled original content and append one blocking
alert, with a distinct message each; neither branch touches the field
values, the named inputs, or the hidden state of the success element. -/
theorem failure_outcomes_spec (st : UIState) :
    (handleOutcome st .remoteRejection).button = { disabled := false, label := st.btnSnapshot } ∧
    (handleOutcome st .networkFailure).button = { disabled := false, label := st.btnSnapshot } ∧
    (handleOutcome st .remoteRejection).alerts = st.alerts ++ [rejectionAlert] ∧
    (handleOutcome st .networkFailure).alerts = st.alerts ++ [networkAlert] ∧
    rejectionAlert ≠ networkAlert ∧
    (handleOutcome st .remoteRejection).values = st.values ∧
    (handleOutcome st .networkFailure).values = st.values ∧
    (handleOutcome st .remoteRejection).fields = st.fields ∧
    (handleOutcome st .networkFailure).fields = st.fields ∧
    (handleOutcome st .remoteRejection).successHidden = st.successHidden ∧
    (handleOutcome st .networkFailure).successHidden = st.successHidden := by
  refine ⟨by simp [handleOutcome, setSubmitting], by simp [handleOutcome, setSubmitting],
    rfl, rfl, by decide, rfl, rfl, rfl, rfl, rfl, rfl⟩

/-- C7 counterexample: the claim calls every non-Success response shape a
rejection, and Success only a boolean true `ok`. On the code, a response
whose body is not JSON makes `res.json()` reject, which the `.catch`
handles: the network-failure branch runs, not the rejection branch. And a
JSON body with the truthy non-boolean `ok: 1` runs the success branch,
not the rejection branch. -/
theorem response_shape_counterexample :
    interpretCompletion (.resolved none) = .networkFailure ∧
    Outcome.networkFailure ≠ Outcome.remoteRejection ∧
    interpretCompletion (.resolved (some [("ok", .num 1)])) = .success ∧
    Outcome.success ≠ Outcome.remoteRejection := by
  refine ⟨rfl, by decide, by decide, by decide⟩

/-- C7 (amended): the response runs the success branch exactly when its
body parses as JSON and the `ok` property of the parsed object is truthy
(boolean true, but also any nonzero number or non-empty string); a parsed
body whose `ok` is missing or falsy runs the rejection branch; a body
that is not valid JSON makes `res.json()` reject and runs the
network-failure branch, exactly as a failure of the request itself does. -/
theorem interpret_response_spec (c : FetchCompletion) :
    (interpretCompletion c = .success ↔
      ∃ data, c = .resolved (some data) ∧ truthy (getProp data "ok") = true) ∧
    (interpretCompletion c = .remoteRejection ↔
      ∃ data, c = .resolved (some data) ∧ truthy (getProp data "ok") = false) ∧
    (interpretCompletion c = .networkFailure ↔
      (c = .rejected ∨ c = .resolved none)) := by
  cases c with
  | rejected => simp [interpretCompletion]
  | resolved body =>
    cases body with
    | none => simp [interpretCompletion]
    | some data =>
      by_cases h : truthy (getProp data "ok") = true
      · simp [interpretCompletion, h]
      · rw [Bool.not_eq_true] at h
        simp [interpretCompletion, h]

/-- C8: while a valid submission is in flight the submit control is
disabled and shows the pending text, from `setSubmitting(true)` (called
before the fetch is issued) until an outcome branch runs; when the fetch
settles, exactly one of the three outcome branches runs (the settled
completion determines one outcome, once), and every branch re-enables the
submit control as its restoration step. -/
theorem submission_lifecycle (st : FormState) (now : String) (ui : UIState)
    (c : FetchCompletion) (h : (validateAllLoop st.fields).2 = true) :
    (onSubmit st now).button.disabled = true ∧
    (onSubmit st now).button.label = sendingLabel ∧
    (∃! o : Outcome, interpretCompletion c = o) ∧
    (completeSubmission ui c).button.disabled = false ∧
    (completeSubmission ui c).button.label = ui.btnSnapshot := by
  refine ⟨by simp [onSubmit, h, setSubmitting], by simp [onSubmit, h, setSubmitting],
    ⟨interpretCompletion c, rfl, fun y hy => hy.symm⟩, ?_, ?_⟩ <;>
    cases hc : interpretCompletion c <;>
      simp [completeSubmission, hc, handleOutcome, setSubmitting]

/-- A concrete UI state while a submission is in flight. -/
def flightUIState : UIState :=
  { fields := validFormState.fields
    values := validFormState.values
    button := { disabled := true, label := sendingLabel }
    btnSnapshot := "Send"
    successHidden := true
    scrolledToSuccess := false
    alerts := []
    scheduledHides := [] }

theorem submission_lifecycle_witness :
    (validateAllLoop validFormState.fields).2 = true ∧
    ((onSubmit validFormState "2026-01-01T00:00:00.000Z").button.disabled = true ∧
     (onSubmit validFormState "2026-01-01T00:00:00.000Z").button.label = sendingLabel ∧
     (∃! o : Outcome, interpretCompletion (.resolved (some [("ok", .bool true)])) = o) ∧
     (completeSubmission flightUIState (.resolved (some [("ok", .bool true)]))).button.disabled = false ∧
     (completeSubmission flightUIState (.resolved (some [("ok", .bool true)]))).button.label =
       flightUIState.btnSnapshot) :=
  ⟨by decide,
   submission_lifecycle validFormState "2026-01-01T00:00:00.000Z" flightUIState
     (.resolved (some [("ok", .bool true)])) (by decide)⟩

/-- The two events the initializer listens for on every required field. -/
inductive FieldEvent
  | blur
  | input
deriving DecidableEq

/-- The per-field listeners registered by the initializer:
`field.addEventListener("blur", () => validateField(field))` and
`field.addEventListener("input", () => clearError(field))`. -/
def handleFieldEvent : FieldEvent → FormField → FormField
  | .blur, f => (validateField f).1
  | .input, f => clearError f

/-- C9: typing into a required field unconditionally clears the error
class and the accessibility-invalid marker without re-validating — the
value is untouched and the markers end up cleared even when the value is
still invalid (witnessed by the universal quantification over every
field, valid or not); only the blur listener runs `validateField`. -/
theorem input_clears_without_validating (f : FormField) :
    handleFieldEvent .input f = clearError f ∧
    (handleFieldEvent .input f).isError = false ∧
    (handleFieldEvent .input f).ariaInvalid = false ∧
    (handleFieldEvent .input f).value = f.value ∧
    handleFieldEvent .blur f = (validateField f).1 := by
  exact ⟨rfl, rfl, rfl, rfl, rfl⟩

/-- The two elements the initializer looks up before doing anything:
`qs("#contactForm")` and `qs("#formSuccess")`; `none` models a page where
the element is absent. The success element carries its hidden flag. -/
structure Page where
  contactForm : Option FormState
  formSuccess : Option Bool
deriving DecidableEq

/-- Everything `initContactForm` sets up when both elements exist: the
controller state, the hidden flag of the success element, the pair of
listeners registered on each required field, and the submit listener. -/
structure ControllerSetup where
  form : FormState
  successHidden : Bool
  fieldListeners : List (List FieldEvent)
  submitListenerRegistered : Bool
deriving DecidableEq

/-- `initContactForm()` from the source: look up the form and the success
element and return before registering anything when either is missing
(`if (!form || !successEl) return`); otherwise register a blur and an
input listener on every required field and the submit listener on the
form. `none` is the early return: no listener exists, no field is ever
marked, and no code path that issues a request is installed. -/
def initContactForm (page : Page) : Option ControllerSetup :=
  match page.contactForm, page.formSuccess with
  | some form, some hidden =>
    some { form := form
           successHidden := hidden
           fieldListeners := form.fields.map (fun _ => [FieldEvent.blur, FieldEvent.input])
           submitListenerRegistered := true }
  | _, _ => none

/-- C10: when the page lacks the contact-form element or the
success-message element, the initializer returns immediately with nothing
set up: no controller exists, so no listener is registered, no field is
ever marked invalid and no request can be issued from this component. -/
theorem init_guard (page : Page)
    (h : page.contactForm = none ∨ page.formSuccess = none) :
    initContactForm page = none := by
  rcases h with h | h <;>
    · rw [initContactForm]
      rcases hf : page.contactForm with _ | f <;>
        rcases hs : page.formSuccess with _ | s <;>
          simp_all

theorem init_guard_witness :
    ((Page.mk none (some true)).contactForm = none ∨
      (Page.mk none (some true)).formSuccess = none) ∧
    initContactForm (Page.mk none (some true)) = none :=
  ⟨Or.inl rfl, init_guard (Page.mk none (some true)) (Or.inl rfl)⟩
